import Mathlib

/-!
Verification of the movement/camera core of the M1WEngine repository.

The embedding follows the source files:
  * `src/game/tiles/tile.py` (class `Tile`)
  * `src/game/cameraControl/cameraManager.py` (class `CameraManager`)
  * `src/game/entities/damsel.py` (class `Damsel`)

Python objects become Lean records; the mutating methods become functions
from state to state.  Pygame rectangles carry integer coordinates; the
heading ("compass") vector and the movement accumulator are floating point
in the source and are embedded as rationals.
-/

/-- Modelled from the spec: the `direction` module (`direction.py`) is imported
by `tile.py` but is not among the source files; the spec describes it as
"named numeric constants for the four cardinal movement deltas", with heading
components in {-1, 0, 1}, thresholds at ±1, and screen coordinates in which
`right` is the positive x delta (heading (1,0) moves right) and `down` the
positive y delta. -/
def Direction.up : ℚ := -1

/-- Modelled from the spec: positive vertical (downward) unit delta. -/
def Direction.down : ℚ := 1

/-- Modelled from the spec: negative horizontal (leftward) unit delta. -/
def Direction.left : ℚ := -1

/-- Modelled from the spec: positive horizontal (rightward) unit delta. -/
def Direction.right : ℚ := 1

/-- A pygame `Rect`: integer top-left corner and integer size. -/
structure Rect where
  x : Int
  y : Int
  w : Int
  h : Int
deriving Repr, DecidableEq

/-- `rect.centerx` in pygame: `x + w // 2` (floor division, embedded with
`Int.ediv`, which agrees with Python `//` for positive divisors). -/
def Rect.centerx (r : Rect) : Int := r.x + Int.ediv r.w 2

/-- `rect.centery` in pygame: `y + h // 2`. -/
def Rect.centery (r : Rect) : Int := r.y + Int.ediv r.h 2

/-- `rect.center` in pygame. -/
def Rect.center (r : Rect) : Int × Int := (r.centerx, r.centery)

/-- `rect.move_ip(dx, dy)`: shift the rectangle in place. -/
def Rect.move_ip (r : Rect) (dx dy : Int) : Rect :=
  { r with x := r.x + dx, y := r.y + dy }

/-- Assignment `rect.center = c` in pygame: reposition the rectangle so that
its center becomes `c` (top-left is `c` minus half the size). -/
def Rect.setCenter (r : Rect) (c : Int × Int) : Rect :=
  { r with x := c.1 - Int.ediv r.w 2, y := c.2 - Int.ediv r.h 2 }

/-- The mutable state of a `Tile` sprite (`tile.py`): the heading vector
`compass`, the two components of `movementTracker`, the render rectangle
`rect` and the collision rectangle `hitbox`. -/
structure TileState where
  compass : ℚ × ℚ
  trackerH : ℚ
  trackerV : ℚ
  rect : Rect
  hitbox : Rect
deriving Repr, DecidableEq

namespace Tile

/-- `Tile._move_left`: shift the render rectangle `speed` pixels to the left
and re-center the collision rectangle on it. -/
def _move_left (s : TileState) (speed : Int) : TileState :=
  let move_pixels_x : Int := -1 * speed
  let move_pixels_y : Int := 0
  let rect := s.rect.move_ip move_pixels_x move_pixels_y
  { s with rect := rect, hitbox := s.hitbox.setCenter rect.center }

/-- `Tile._move_right`: shift the render rectangle `speed` pixels to the right
and re-center the collision rectangle on it. -/
def _move_right (s : TileState) (speed : Int) : TileState :=
  let move_pixels_x : Int := speed
  let move_pixels_y : Int := 0
  let rect := s.rect.move_ip move_pixels_x move_pixels_y
  { s with rect := rect, hitbox := s.hitbox.setCenter rect.center }

/-- `Tile._move_up`: shift the render rectangle `speed` pixels up
and re-center the collision rectangle on it. -/
def _move_up (s : TileState) (speed : Int) : TileState :=
  let move_pixels_x : Int := 0
  let move_pixels_y : Int := -1 * speed
  let rect := s.rect.move_ip move_pixels_x move_pixels_y
  { s with rect := rect, hitbox := s.hitbox.setCenter rect.center }

/-- `Tile._move_down`: shift the render rectangle `speed` pixels down
and re-center the collision rectangle on it. -/
def _move_down (s : TileState) (speed : Int) : TileState :=
  let move_pixels_x : Int := 0
  let move_pixels_y : Int := speed
  let rect := s.rect.move_ip move_pixels_x move_pixels_y
  { s with rect := rect, hitbox := s.hitbox.setCenter rect.center }

/-- `Tile.update_movement_tracker`: advance both accumulator components by the
corresponding heading component. -/
def update_movement_tracker (s : TileState) : TileState :=
  { s with
    trackerH := s.trackerH + s.compass.1,
    trackerV := s.trackerV + s.compass.2 }

/-- `Tile.move(speed)`: update the tracker, then for the vertical axis shift
up/down when the tracker crossed the up/down threshold (relaxing it by the
opposing unit), then likewise for the horizontal axis. -/
def move (s : TileState) (speed : Int) : TileState :=
  let s := update_movement_tracker s
  let s :=
    if s.trackerV ≤ Direction.up then
      let s := _move_up s speed
      { s with trackerV := s.trackerV + Direction.down }
    else if s.trackerV ≥ Direction.down then
      let s := _move_down s speed
      { s with trackerV := s.trackerV + Direction.up }
    else s
  if s.trackerH ≤ Direction.left then
    let s := _move_left s speed
    { s with trackerH := s.trackerH + Direction.right }
  else if s.trackerH ≥ Direction.right then
    let s := _move_right s speed
    { s with trackerH := s.trackerH + Direction.left }
  else s

/-- `Tile.move_right(speed)`: sets `compass.x = Direction.right`,
`compass.y = 0`, then performs the low-level right shift. -/
def move_right (s : TileState) (speed : Int) : TileState :=
  _move_right { s with compass := (Direction.right, 0) } speed

/-- `Tile.move_left(speed)`: as written in the source it sets
`compass.x = Direction.right` (not `Direction.left`), `compass.y = 0`,
then performs the low-level left shift. -/
def move_left (s : TileState) (speed : Int) : TileState :=
  _move_left { s with compass := (Direction.right, 0) } speed

/-- `Tile.move_up(speed)`: sets `compass.x = 0`, `compass.y = Direction.up`,
then performs the low-level up shift. -/
def move_up (s : TileState) (speed : Int) : TileState :=
  _move_up { s with compass := (0, Direction.up) } speed

/-- `Tile.move_down(speed)`: sets `compass.x = 0`,
`compass.y = Direction.down`, then performs the low-level down shift. -/
def move_down (s : TileState) (speed : Int) : TileState :=
  _move_down { s with compass := (0, Direction.down) } speed

/-- `Tile.set_tile(coords, surface)`: place the render rectangle of the
surface's size at `coords` and make the collision rectangle that same
rectangle.  The surface is represented by its size. -/
def set_tile (s : TileState) (coords : Int × Int) (size : Int × Int) : TileState :=
  let rect : Rect := { x := coords.1, y := coords.2, w := size.1, h := size.2 }
  { s with rect := rect, hitbox := rect }

end Tile

namespace CameraManager

/-- The ordering relation used by `camera_update`'s `sorted` call: compare
sprites by the vertical center coordinate of their render rectangle. -/
def byCentery (a b : TileState) : Prop := a.rect.centery ≤ b.rect.centery

instance : DecidableRel byCentery := fun a b => Int.decLe _ _

instance : IsTotal TileState byCentery := ⟨fun a b => Int.le_total _ _⟩

instance : IsTrans TileState byCentery := ⟨fun _ _ _ h1 h2 => le_trans h1 h2⟩

/-- The order in which `camera_update` visits the managed sprites:
`sorted(self.sprites(), key=lambda sprite: sprite.rect.centery)` — a stable
ascending sort by `rect.centery`, embedded as insertion sort. -/
def processingOrder (sprites : List TileState) : List TileState :=
  List.insertionSort byCentery sprites

/-- The per-sprite body of `camera_update`'s loop: save the sprite's compass,
overwrite it with the player's compass times -1, call `move(playerSpeed)`,
then restore the saved compass. -/
def cameraStep (playerCompass : ℚ × ℚ) (playerSpeed : Int)
    (s : TileState) : TileState :=
  let prevDirection := s.compass
  let s := { s with compass := (playerCompass.1 * -1, playerCompass.2 * -1) }
  let s := Tile.move s playerSpeed
  { s with compass := prevDirection }

/-- `CameraManager.camera_update()`: visit the managed sprites in ascending
`rect.centery` order, applying the save/invert/move/restore body to each. -/
def camera_update (playerCompass : ℚ × ℚ) (playerSpeed : Int)
    (sprites : List TileState) : List TileState :=
  (processingOrder sprites).map (cameraStep playerCompass playerSpeed)

end CameraManager

/-- The state of a `Damsel` entity (`damsel.py`): the inherited tile state
(position, hitbox, heading, accumulator), the animation state, and its
group memberships. -/
structure DamselState where
  tile : TileState
  status : String
  frameIndex : ℚ
  timer : Int
  groups : List String
deriving Repr, DecidableEq

/-- `Damsel.collision_handler(direction)`: the body is a bare `return`. -/
def Damsel.collision_handler (s : DamselState) (direction : String) : DamselState :=
  s

/-! ### Helper lemmas -/

/-- Setting a rectangle's center and reading it back returns the assigned
center exactly, for every width and height (the half-size offset cancels). -/
theorem Rect.center_setCenter (r : Rect) (c : Int × Int) :
    (r.setCenter c).center = c := by
  cases c
  simp only [Rect.setCenter, Rect.center, Rect.centerx, Rect.centery, Prod.mk.injEq]
  constructor <;> omega

/-- Re-centering a rectangle on a shifted copy of itself equals shifting it,
provided the two have the same size (here: the same rectangle). -/
theorem Rect.setCenter_center_move_ip (r : Rect) (dx dy : Int) :
    r.setCenter (r.move_ip dx dy).center = r.move_ip dx dy := by
  cases r
  simp [Rect.setCenter, Rect.center, Rect.centerx, Rect.centery, Rect.move_ip]

/-- `Tile.move` never changes the compass. -/
theorem Tile.move_compass (s : TileState) (speed : Int) :
    (Tile.move s speed).compass = s.compass := by
  simp only [Tile.move, Tile.update_movement_tracker, Tile._move_up, Tile._move_down,
    Tile._move_left, Tile._move_right]
  split_ifs <;> rfl

/-! ### Claim theorems -/

/-- A tile at the origin with zero heading and zero accumulator, the failing
input for the `move_left` heading defect. -/
def tileAtOrigin : TileState where
  compass := (0, 0)
  trackerH := 0
  trackerV := 0
  rect := ⟨0, 0, 16, 16⟩
  hitbox := ⟨0, 0, 16, 16⟩

/-- C1: the claim says `move_left(speed)` sets the heading to the
left-pointing unit vector.  The code sets `compass.x = Direction.right`:
at the failing input `tileAtOrigin` with speed 1, `move_left(1)` moves the
render rectangle one pixel to the LEFT while leaving the heading equal to
the RIGHT unit vector `(Direction.right, 0) = (1, 0)`, and
`Direction.right ≠ Direction.left`. -/
theorem C1_move_left_sets_right_heading :
    (Tile.move_left tileAtOrigin 1).compass = (Direction.right, 0) ∧
    Direction.right ≠ Direction.left ∧
    (Tile.move_left tileAtOrigin 1).rect.x = -1 :=
  ⟨rfl, by decide, rfl⟩

/-- The sprite of the spec's worked example: render rectangle at (100,100),
heading (1,0), both accumulator components 0. -/
def exampleSprite : TileState where
  compass := (1, 0)
  trackerH := 0
  trackerV := 0
  rect := ⟨100, 100, 16, 16⟩
  hitbox := ⟨100, 100, 16, 16⟩

/-- C5: the spec's worked example: for `exampleSprite` (at (100,100), heading
(1,0), zero accumulator) with speed 4, the tracker update takes the
horizontal accumulator to 1, which crosses the right threshold, one `move`
moves the render rectangle to (104,100), and the horizontal accumulator
relaxes back to 0 (the vertical accumulator stays 0). -/
theorem C5_worked_example :
    (Tile.update_movement_tracker exampleSprite).trackerH = 1 ∧
    (1 : ℚ) ≥ Direction.right ∧
    (Tile.move exampleSprite 4).rect.x = 104 ∧
    (Tile.move exampleSprite 4).rect.y = 100 ∧
    (Tile.move exampleSprite 4).trackerH = 0 ∧
    (Tile.move exampleSprite 4).trackerV = 0 := by
  norm_num [Tile.move, Tile.update_movement_tracker, Tile._move_up, Tile._move_down,
    Tile._move_left, Tile._move_right, Rect.move_ip, Rect.setCenter, Rect.center,
    Rect.centerx, Rect.centery, Direction.up, Direction.down, Direction.left,
    Direction.right, exampleSprite]

/-- C8: for all speeds and every starting state, calling `move_left(s1)` and
then `move_up(s2)` leaves the heading equal to `(0, Direction.up)`: the most
recent directional call determines the heading entirely and the horizontal
axis set by the earlier call is not preserved. -/
theorem C8_last_directional_call_wins (s : TileState) (s1 s2 : Int) :
    (Tile.move_up (Tile.move_left s s1) s2).compass = (0, Direction.up) := rfl

/-- C6: after every pixel shift performed by any of the four low-level move
primitives, for every speed and starting state, the collision rectangle's
center equals the render rectangle's center exactly. -/
theorem C6_hitbox_center_synchronized (s : TileState) (speed : Int) :
    (Tile._move_left s speed).hitbox.center = (Tile._move_left s speed).rect.center ∧
    (Tile._move_right s speed).hitbox.center = (Tile._move_right s speed).rect.center ∧
    (Tile._move_up s speed).hitbox.center = (Tile._move_up s speed).rect.center ∧
    (Tile._move_down s speed).hitbox.center = (Tile._move_down s speed).rect.center := by
  refine ⟨?_, ?_, ?_, ?_⟩ <;>
    simp only [Tile._move_left, Tile._move_right, Tile._move_up, Tile._move_down] <;>
    exact Rect.center_setCenter _ _

/-- C2 counterexample: the claim says the render rectangle changes by exactly
ONE pixel at the call where the axis accumulator crosses its unit threshold.
At the spec's own example input (heading (1,0), speed 4, zero accumulator)
the first `move` call crosses the right threshold and the rectangle's x
coordinate changes by 4 pixels, not 1. -/
theorem C2_counterexample :
    (Tile.update_movement_tracker exampleSprite).trackerH ≥ Direction.right ∧
    (Tile.move exampleSprite 4).rect.x - exampleSprite.rect.x = 4 ∧
    (4 : Int) ≠ 1 := by
  norm_num [Tile.move, Tile.update_movement_tracker, Tile._move_up, Tile._move_down,
    Tile._move_left, Tile._move_right, Rect.move_ip, Rect.setCenter, Rect.center,
    Rect.centerx, Rect.centery, Direction.up, Direction.down, Direction.left,
    Direction.right, exampleSprite]

/-- C2 amended: in every `move(speed)` call, each axis of the render rectangle
shifts at most once: it shifts by exactly `speed` pixels (in the direction of
the crossed threshold) when the freshly-advanced accumulator for that axis
has crossed its unit threshold, and does not change otherwise. -/
theorem C2_amended_one_shift_per_axis (s : TileState) (speed : Int) :
    (Tile.move s speed).rect.x =
      s.rect.x +
        (if (Tile.update_movement_tracker s).trackerH ≤ Direction.left then -speed
         else if (Tile.update_movement_tracker s).trackerH ≥ Direction.right then speed
         else 0) ∧
    (Tile.move s speed).rect.y =
      s.rect.y +
        (if (Tile.update_movement_tracker s).trackerV ≤ Direction.up then -speed
         else if (Tile.update_movement_tracker s).trackerV ≥ Direction.down then speed
         else 0) := by
  simp only [Tile.move, Tile.update_movement_tracker, Tile._move_up, Tile._move_down,
    Tile._move_left, Tile._move_right, Rect.move_ip, Rect.setCenter, Rect.center,
    Rect.centerx, Rect.centery]
  split_ifs <;> constructor <;> simp

/-- A tile whose horizontal accumulator sits at -1/2 with zero heading; it
separates the low-level unconditional shift from a `move(speed)` step. -/
def halfLeftTile : TileState where
  compass := (0, 0)
  trackerH := -1/2
  trackerV := 0
  rect := ⟨0, 0, 16, 16⟩
  hitbox := ⟨0, 0, 16, 16⟩

/-- C3 counterexample: `move_right(1)` on `halfLeftTile` shifts the render
rectangle unconditionally (x becomes 1), while first setting the heading to
the right unit vector and then calling `move(1)` leaves the rectangle in
place (the accumulator only reaches 1/2), so the two final states differ;
moreover `move_left` does not even set the left unit vector heading the
claim prescribes. -/
theorem C3_counterexample :
    (Tile.move_right halfLeftTile 1).rect.x ≠
      (Tile.move { halfLeftTile with compass := (Direction.right, 0) } 1).rect.x ∧
    (Tile.move_left halfLeftTile 1).compass ≠ (Direction.left, 0) := by
  constructor
  · norm_num [Tile.move, Tile.update_movement_tracker, Tile.move_right, Tile._move_up,
      Tile._move_down, Tile._move_left, Tile._move_right, Rect.move_ip, Rect.setCenter,
      Rect.center, Rect.centerx, Rect.centery, Direction.up, Direction.down,
      Direction.left, Direction.right, halfLeftTile]
  · norm_num [Tile.move_left, Tile._move_left, Direction.left, Direction.right,
      halfLeftTile, Prod.ext_iff]

/-- C3 amended: for every speed and starting state, `move_X(speed)` sets the
heading as the code writes it (`move_up` to (0, up), `move_down` to
(0, down), `move_left` and `move_right` both to (right, 0)) and then applies
the low-level `_move_X(speed)` shift unconditionally: the render rectangle
moves by `speed` pixels in direction X immediately and the accumulator is
neither consulted nor modified — no `move(speed)` step is performed. -/
theorem C3_amended_directional_moves (s : TileState) (speed : Int) :
    ((Tile.move_up s speed).compass = (0, Direction.up) ∧
     (Tile.move_up s speed).rect.x = s.rect.x ∧
     (Tile.move_up s speed).rect.y = s.rect.y - speed ∧
     (Tile.move_up s speed).trackerH = s.trackerH ∧
     (Tile.move_up s speed).trackerV = s.trackerV) ∧
    ((Tile.move_down s speed).compass = (0, Direction.down) ∧
     (Tile.move_down s speed).rect.x = s.rect.x ∧
     (Tile.move_down s speed).rect.y = s.rect.y + speed ∧
     (Tile.move_down s speed).trackerH = s.trackerH ∧
     (Tile.move_down s speed).trackerV = s.trackerV) ∧
    ((Tile.move_left s speed).compass = (Direction.right, 0) ∧
     (Tile.move_left s speed).rect.x = s.rect.x - speed ∧
     (Tile.move_left s speed).rect.y = s.rect.y ∧
     (Tile.move_left s speed).trackerH = s.trackerH ∧
     (Tile.move_left s speed).trackerV = s.trackerV) ∧
    ((Tile.move_right s speed).compass = (Direction.right, 0) ∧
     (Tile.move_right s speed).rect.x = s.rect.x + speed ∧
     (Tile.move_right s speed).rect.y = s.rect.y ∧
     (Tile.move_right s speed).trackerH = s.trackerH ∧
     (Tile.move_right s speed).trackerV = s.trackerV) := by
  refine ⟨⟨rfl, ?_, ?_, rfl, rfl⟩, ⟨rfl, ?_, ?_, rfl, rfl⟩,
    ⟨rfl, ?_, ?_, rfl, rfl⟩, ⟨rfl, ?_, ?_, rfl, rfl⟩⟩ <;>
    simp [Tile.move_up, Tile.move_down, Tile.move_left, Tile.move_right,
      Tile._move_up, Tile._move_down, Tile._move_left, Tile._move_right,
      Rect.move_ip] <;> omega

/-- C4: camera inversion.  One `camera_update()` with player heading H and
player speed S applies the loop body to every managed sprite exactly once
(the processed list is a permutation of the per-sprite images), and the loop
body leaves a sprite with exactly the rectangles and accumulator it would
have reached had its own `move(S)` been called with heading -H, while its
own heading attribute is unchanged (saved and restored). -/
theorem C4_camera_inversion (H : ℚ × ℚ) (S : Int) (sprites : List TileState)
    (s : TileState) :
    (CameraManager.camera_update H S sprites).Perm
      (sprites.map (CameraManager.cameraStep H S)) ∧
    (CameraManager.cameraStep H S s).rect =
      (Tile.move { s with compass := (-H.1, -H.2) } S).rect ∧
    (CameraManager.cameraStep H S s).hitbox =
      (Tile.move { s with compass := (-H.1, -H.2) } S).hitbox ∧
    (CameraManager.cameraStep H S s).trackerH =
      (Tile.move { s with compass := (-H.1, -H.2) } S).trackerH ∧
    (CameraManager.cameraStep H S s).trackerV =
      (Tile.move { s with compass := (-H.1, -H.2) } S).trackerV ∧
    (CameraManager.cameraStep H S s).compass = s.compass := by
  have hneg : ({ s with compass := (H.1 * -1, H.2 * -1) } : TileState)
      = { s with compass := (-H.1, -H.2) } := by
    simp [mul_neg_one]
  refine ⟨?_, ?_, ?_, ?_, ?_, rfl⟩
  · simp only [CameraManager.camera_update, CameraManager.processingOrder]
    exact (List.perm_insertionSort CameraManager.byCentery sprites).map _
  all_goals simp only [CameraManager.cameraStep, hneg]

/-- C7: for every collection of managed sprites, the order in which
`camera_update()` processes them is non-decreasing in the render rectangle's
vertical center coordinate: the processing order is sorted by `rect.centery`,
it is a permutation of the managed sprites, and `camera_update` is exactly
the inverted-heading move applied along that order. -/
theorem C7_processing_order_sorted (H : ℚ × ℚ) (S : Int)
    (sprites : List TileState) :
    List.Sorted (fun a b => a.rect.centery ≤ b.rect.centery)
      (CameraManager.processingOrder sprites) ∧
    (CameraManager.processingOrder sprites).Perm sprites ∧
    CameraManager.camera_update H S sprites =
      (CameraManager.processingOrder sprites).map (CameraManager.cameraStep H S) :=
  ⟨List.sorted_insertionSort CameraManager.byCentery sprites,
   List.perm_insertionSort CameraManager.byCentery sprites, rfl⟩

/-- One call of the `Tile` movement interface: the tracked `move` step, a
directional `move_{left,right,up,down}` call, or a low-level
`_move_{left,right,up,down}` shift. -/
inductive TileOp where
  | step (speed : Int)
  | dirLeft (speed : Int)
  | dirRight (speed : Int)
  | dirUp (speed : Int)
  | dirDown (speed : Int)
  | lowLeft (speed : Int)
  | lowRight (speed : Int)
  | lowUp (speed : Int)
  | lowDown (speed : Int)

/-- Interpretation of one movement call on a tile state. -/
def TileOp.apply : TileOp → TileState → TileState
  | .step speed, s => Tile.move s speed
  | .dirLeft speed, s => Tile.move_left s speed
  | .dirRight speed, s => Tile.move_right s speed
  | .dirUp speed, s => Tile.move_up s speed
  | .dirDown speed, s => Tile.move_down s speed
  | .lowLeft speed, s => Tile._move_left s speed
  | .lowRight speed, s => Tile._move_right s speed
  | .lowUp speed, s => Tile._move_up s speed
  | .lowDown speed, s => Tile._move_down s speed

/-- A sequence of movement calls, applied left to right. -/
def applyOps (ops : List TileOp) (s : TileState) : TileState :=
  ops.foldl (fun t op => op.apply t) s

/-- Every movement call preserves the invariant that the collision rectangle
is the very same rectangle as the render rectangle (the value-level image of
the source's aliasing `self.hitbox = self.rect`). -/
theorem TileOp.apply_hitbox_eq_rect (op : TileOp) (s : TileState)
    (h : s.hitbox = s.rect) : (op.apply s).hitbox = (op.apply s).rect := by
  cases op <;>
    simp only [TileOp.apply, Tile.move, Tile.update_movement_tracker,
      Tile.move_left, Tile.move_right, Tile.move_up, Tile.move_down,
      Tile._move_left, Tile._move_right, Tile._move_up, Tile._move_down] <;>
    (try split_ifs) <;>
    simp [h, Rect.setCenter_center_move_ip]

/-- C9: after `set_tile(coords, surface)` the collision rectangle is the very
same rectangle as the render rectangle, and after any subsequent sequence of
`move` / `move_X` / `_move_X` calls the hitbox still equals the render
rectangle entirely — same top-left and same size, not merely the same
center. -/
theorem C9_hitbox_equals_rect (s : TileState) (coords size : Int × Int)
    (ops : List TileOp) :
    (applyOps ops (Tile.set_tile s coords size)).hitbox =
      (applyOps ops (Tile.set_tile s coords size)).rect := by
  suffices hgen : ∀ (l : List TileOp) (t : TileState), t.hitbox = t.rect →
      (applyOps l t).hitbox = (applyOps l t).rect from
    hgen ops (Tile.set_tile s coords size) rfl
  intro l
  induction l with
  | nil => intro t h; exact h
  | cons op l ih =>
    intro t h
    exact ih (op.apply t) (TileOp.apply_hitbox_eq_rect op t h)

/-- C10: the damsel's `collision_handler` is a no-op for every direction
argument: it returns normally and leaves the entire damsel state — tile
state (position, hitbox, heading, accumulator), animation state and group
memberships — unchanged. -/
theorem C10_collision_handler_noop (s : DamselState) (direction : String) :
    Damsel.collision_handler s direction = s ∧
    (Damsel.collision_handler s direction).tile = s.tile ∧
    (Damsel.collision_handler s direction).status = s.status ∧
    (Damsel.collision_handler s direction).frameIndex = s.frameIndex ∧
    (Damsel.collision_handler s direction).groups = s.groups :=
  ⟨rfl, rfl, rfl, rfl, rfl⟩
